import Mathlib

/-!
Verification of the token-based authentication provider
(`src/argilla/server/security/auth_provider/db/provider.py`).

Time is modelled as natural-number instants (seconds); durations are
natural numbers of seconds. A `timedelta(minutes=m)` becomes `60 * m`
seconds, and Python truthiness of a timedelta (zero is falsy) becomes
an explicit zero test. Python `None` becomes `Option.none`, and the
truthiness of an optional string (empty string is falsy) is modelled
explicitly where the source relies on it.
-/

namespace Argilla

/-- Modelled from the spec: the user identity persisted by the external
Credential Store (`argilla.server.models.User` is not among the sampled
sources). It has a unique username, a password hash, a unique optional
API key and an admin flag. -/
structure User where
  username : String
  password_hash : String
  api_key : Option String
  admin : Bool
deriving DecidableEq, Repr

/-- Modelled from the spec: the process-wide security configuration
(`.settings.Settings` is not among the sampled sources): a server-held
secret key, a single configured signing algorithm, and the token
expiration in minutes. -/
structure Settings where
  secret_key : String
  algorithm : String
  token_expiration_in_minutes : Nat
deriving DecidableEq, Repr

/-- A token claim set: a subject claim and an optional expiration
instant, each possibly absent. -/
structure Claims where
  sub : Option String
  exp : Option Nat
deriving DecidableEq, Repr

/-- A signature over a claim set: an idealized MAC, recording exactly the
algorithm, key and payload it was produced from. Verification succeeds
precisely when the verifier recomputes the same triple. -/
structure Sig where
  alg : String
  key : String
  payload : Claims
deriving DecidableEq, Repr

/-- An encoded token: a header naming the signing algorithm, the claim
set, and the signature. -/
structure JWT where
  alg : String
  claims : Claims
  sig : Sig
deriving DecidableEq, Repr

/-- Failures of token verification. -/
inductive JWTError where
  | invalidAlgorithm
  | invalidSignature
  | expired
deriving DecidableEq, Repr

/-- Modelled from the spec: the Token Codec issue half (the `jose.jwt`
library used by `_create_access_token` is external code). Serializes and
signs the claim set with the server-held secret key and the configured
algorithm. -/
def jwt_encode (claims : Claims) (key : String) (algorithm : String) : JWT :=
  { alg := algorithm, claims := claims, sig := ⟨algorithm, key, claims⟩ }

/-- Modelled from the spec: the Token Codec verify half (the `jose.jwt`
library used by `fetch_token_user` is external code). Rejects a token
whose header algorithm is not among the allowed algorithms
(algorithm-confusion protection), fails with `invalidSignature` when the
signature does not verify against the given key and the header
algorithm, fails with `expired` when an expiration claim is present and
the current instant is at or after it, and otherwise returns the claim
set. -/
def jwt_decode (token : JWT) (key : String) (algorithms : List String)
    (now : Nat) : Except JWTError Claims :=
  if token.alg ∉ algorithms then .error .invalidAlgorithm
  else if token.sig ≠ ⟨token.alg, key, token.claims⟩ then .error .invalidSignature
  else
    match token.claims.exp with
    | some e => if e ≤ now then .error .expired else .ok token.claims
    | none => .ok token.claims

/-- Modelled from the spec: the Credential Store password check
(`argilla.server.contexts.accounts` is not among the sampled sources).
A concrete hash keeps the check executable. -/
def hash_password (plain : String) : String := "hashed:" ++ plain

/-- Modelled from the spec: whether a stored password hash verifies
against a supplied plain password. -/
def verify_password (plain stored_hash : String) : Bool :=
  hash_password plain == stored_hash

/-- Modelled from the spec: Credential Store lookup by username
(`accounts.get_user_by_username`). -/
def get_user_by_username (db : List User) (username : String) : Option User :=
  db.find? (fun u => u.username == username)

/-- Modelled from the spec: Credential Store lookup by API key
(`accounts.get_user_by_api_key`). -/
def get_user_by_api_key (db : List User) (key : String) : Option User :=
  db.find? (fun u => u.api_key == some key)

/-- Modelled from the spec: `accounts.authenticate_user`. Looks the user
up by username; if absent, or the stored hash does not verify against
the supplied password, fails; the two failure cases are not
distinguished in the result. -/
def authenticate_user (db : List User) (username password : String) :
    Option User :=
  match get_user_by_username db username with
  | none => none
  | some user =>
    if verify_password password user.password_hash then some user else none

/-- `DBAuthProvider._create_access_token`: builds the claim set with the
subject, adds an expiration instant `now + expires_delta` exactly when
`expires_delta` is truthy (present and nonzero, mirroring Python
timedelta truthiness), then encodes with the configured secret key and
algorithm. -/
def _create_access_token (s : Settings) (now : Nat) (username : String)
    (expires_delta : Option Nat) : JWT :=
  let exp : Option Nat :=
    match expires_delta with
    | some d => if d ≠ 0 then some (now + d) else none
    | none => none
  jwt_encode { sub := some username, exp := exp } s.secret_key s.algorithm

/-- `login_for_access_token`: authenticates the credentials against the
store; on failure raises `UnauthorizedError` (here `none`); on success
issues an access token for the user with the configured expiration,
`timedelta(minutes=token_expiration_in_minutes)` (here
`60 * token_expiration_in_minutes` seconds). -/
def login_for_access_token (db : List User) (s : Settings) (now : Nat)
    (username password : String) : Option JWT :=
  match authenticate_user db username password with
  | none => none
  | some user =>
    some (_create_access_token s now user.username
      (some (60 * s.token_expiration_in_minutes)))

/-- `DBAuthProvider.fetch_token_user`: decodes the token with the
configured secret key and the one-element algorithm list; on any decode
error returns `none`; otherwise reads the `sub` claim and, when it is a
truthy string (present and nonempty), looks the user up by username. -/
def fetch_token_user (db : List User) (s : Settings) (token : JWT)
    (now : Nat) : Option User :=
  match jwt_decode token s.secret_key [s.algorithm] now with
  | .error _ => none
  | .ok payload =>
    match payload.sub with
    | some username =>
      if username ≠ "" then get_user_by_username db username else none
    | none => none

/-- `DBAuthProvider.get_current_user`: if the API key header is truthy
(present and nonempty), resolve by API key alone; otherwise, if a bearer
token is present, resolve through `fetch_token_user`; a `none` result
stands for raising `UnauthorizedError`. -/
def get_current_user (db : List User) (s : Settings) (now : Nat)
    (api_key : Option String) (token : Option JWT) : Option User :=
  match api_key with
  | some k =>
    if k ≠ "" then get_user_by_api_key db k
    else
      match token with
      | some t => fetch_token_user db s t now
      | none => none
  | none =>
    match token with
    | some t => fetch_token_user db s t now
    | none => none

/-- A user found by username lookup carries exactly the queried username. -/
theorem get_user_by_username_name (db : List User) (u : String) (user : User)
    (h : get_user_by_username db u = some user) : user.username = u := by
  unfold get_user_by_username at h
  have h2 := List.find?_some h
  exact eq_of_beq h2

/-- Successful authentication means the username lookup found the user and
the password verified. -/
theorem authenticate_user_some (db : List User) (u p : String) (user : User)
    (h : authenticate_user db u p = some user) :
    get_user_by_username db u = some user ∧
      verify_password p user.password_hash = true := by
  unfold authenticate_user at h
  rcases hw : get_user_by_username db u with _ | w <;> rw [hw] at h
  · exact absurd h (by simp)
  · by_cases hv : verify_password p w.password_hash
    · simp [hv] at h
      subst h
      exact ⟨rfl, hv⟩
    · simp [hv] at h

/-- Claim C1: when both an API key and a bearer token are present,
`get_current_user` resolves via the API-key lookup alone: the result
equals API-key-only resolution, is independent of the bearer token, and
when the API-key lookup finds no user the request fails even though the
bearer token is also present. -/
theorem api_key_precedence (db : List User) (s : Settings) (now : Nat)
    (k : String) (t : JWT) (hk : k ≠ "") :
    get_current_user db s now (some k) (some t) = get_user_by_api_key db k ∧
    get_current_user db s now (some k) (some t) =
      get_current_user db s now (some k) none ∧
    (get_user_by_api_key db k = none →
      get_current_user db s now (some k) (some t) = none) := by
  simp [get_current_user, hk]

/-- Witness for C1: a store whose only user has no API key, an API key
header that matches no user, and a bearer token that alone would resolve
that user; the request still fails. -/
theorem api_key_precedence_witness :
    get_current_user [⟨"alice", "hashed:pw", none, false⟩]
        ⟨"sk", "HS256", 15⟩ 0 (some "stale-key")
        (some (jwt_encode ⟨some "alice", none⟩ "sk" "HS256")) =
      get_user_by_api_key [⟨"alice", "hashed:pw", none, false⟩] "stale-key" ∧
    get_current_user [⟨"alice", "hashed:pw", none, false⟩]
        ⟨"sk", "HS256", 15⟩ 0 (some "stale-key")
        (some (jwt_encode ⟨some "alice", none⟩ "sk" "HS256")) =
      get_current_user [⟨"alice", "hashed:pw", none, false⟩]
        ⟨"sk", "HS256", 15⟩ 0 (some "stale-key") none ∧
    (get_user_by_api_key [⟨"alice", "hashed:pw", none, false⟩] "stale-key" = none →
      get_current_user [⟨"alice", "hashed:pw", none, false⟩]
          ⟨"sk", "HS256", 15⟩ 0 (some "stale-key")
          (some (jwt_encode ⟨some "alice", none⟩ "sk" "HS256")) = none) :=
  api_key_precedence [⟨"alice", "hashed:pw", none, false⟩] ⟨"sk", "HS256", 15⟩ 0
    "stale-key" (jwt_encode ⟨some "alice", none⟩ "sk" "HS256") (by decide)

/-- Claim C2: a token issued at instant `now` with a positive ttl `T`
decodes successfully at every instant strictly before `now + T` and
fails with `expired` at every instant at or after `now + T`. -/
theorem token_ttl_expiry (s : Settings) (now T t : Nat) (u : String)
    (hT : 0 < T) :
    (t < now + T →
      jwt_decode (_create_access_token s now u (some T))
        s.secret_key [s.algorithm] t = .ok ⟨some u, some (now + T)⟩) ∧
    (now + T ≤ t →
      jwt_decode (_create_access_token s now u (some T))
        s.secret_key [s.algorithm] t = .error .expired) := by
  constructor <;> intro h
  · simp [_create_access_token, jwt_encode, jwt_decode, hT.ne', not_le.mpr h]
  · simp [_create_access_token, jwt_encode, jwt_decode, hT.ne', h]

/-- Witness for C2: a token with a 60-second ttl issued at instant 100
decodes at instant 159 and is expired at instant 160. -/
theorem token_ttl_expiry_witness :
    jwt_decode (_create_access_token ⟨"sk", "HS256", 15⟩ 100 "alice" (some 60))
        "sk" ["HS256"] 159 = .ok ⟨some "alice", some 160⟩ ∧
    jwt_decode (_create_access_token ⟨"sk", "HS256", 15⟩ 100 "alice" (some 60))
        "sk" ["HS256"] 160 = .error .expired :=
  ⟨(token_ttl_expiry ⟨"sk", "HS256", 15⟩ 100 60 159 "alice" (by decide)).1
      (by decide),
    (token_ttl_expiry ⟨"sk", "HS256", 15⟩ 100 60 160 "alice" (by decide)).2
      (by decide)⟩

/-- Claim C3: round trip. Decoding a token issued for a subject with the
same secret key and algorithm, at any instant strictly before the
expiration, yields a claim set whose subject equals the issued
subject. -/
theorem round_trip_subject (s : Settings) (now T t : Nat) (u : String)
    (h : t < now + T) :
    (jwt_decode (_create_access_token s now u (some T))
        s.secret_key [s.algorithm] t).map Claims.sub = .ok (some u) := by
  rcases Nat.eq_zero_or_pos T with hT | hT
  · subst hT
    simp [_create_access_token, jwt_encode, jwt_decode, Except.map]
  · simp [_create_access_token, jwt_encode, jwt_decode, hT.ne', not_le.mpr h,
      Except.map]

/-- Witness for C3: a token for subject bob with a 30-second ttl decodes
at instant 29 to a claim set whose subject is bob. -/
theorem round_trip_subject_witness :
    (jwt_decode (_create_access_token ⟨"key", "HS256", 15⟩ 0 "bob" (some 30))
        "key" ["HS256"] 29).map Claims.sub = .ok (some "bob") :=
  round_trip_subject ⟨"key", "HS256", 15⟩ 0 30 29 "bob" (by decide)

/-- Claim C4: a token signed with the configured algorithm but a secret
key different from the configured one fails verification with
`invalidSignature`, and `fetch_token_user` resolves no user for it. -/
theorem wrong_key_invalid_signature (s : Settings) (c : Claims) (k : String)
    (now : Nat) (hk : k ≠ s.secret_key) :
    jwt_decode (jwt_encode c k s.algorithm) s.secret_key [s.algorithm] now
      = .error .invalidSignature ∧
    ∀ db : List User,
      fetch_token_user db s (jwt_encode c k s.algorithm) now = none := by
  have hdec : jwt_decode (jwt_encode c k s.algorithm) s.secret_key
      [s.algorithm] now = .error .invalidSignature := by
    simp [jwt_decode, jwt_encode, Sig.mk.injEq, hk]
  refine ⟨hdec, fun db => ?_⟩
  simp [fetch_token_user, hdec]

/-- Witness for C4: a token for subject eve signed with a different key
is rejected as an invalid signature and yields no user. -/
theorem wrong_key_invalid_signature_witness :
    jwt_decode (jwt_encode ⟨some "eve", none⟩ "otherkey" "HS256")
        "sk" ["HS256"] 0 = .error .invalidSignature ∧
    ∀ db : List User,
      fetch_token_user db ⟨"sk", "HS256", 15⟩
        (jwt_encode ⟨some "eve", none⟩ "otherkey" "HS256") 0 = none :=
  wrong_key_invalid_signature ⟨"sk", "HS256", 15⟩ ⟨some "eve", none⟩
    "otherkey" 0 (by decide)

/-- Claim C5: every token whose header algorithm differs from the single
configured algorithm is rejected, regardless of its signature, and
`fetch_token_user` resolves no user for it. -/
theorem algorithm_confusion_rejected (s : Settings) (tok : JWT) (now : Nat)
    (h : tok.alg ≠ s.algorithm) :
    jwt_decode tok s.secret_key [s.algorithm] now
      = .error .invalidAlgorithm ∧
    ∀ db : List User, fetch_token_user db s tok now = none := by
  have hdec : jwt_decode tok s.secret_key [s.algorithm] now
      = .error .invalidAlgorithm := by
    simp [jwt_decode, h]
  refine ⟨hdec, fun db => ?_⟩
  simp [fetch_token_user, hdec]

/-- Witness for C5: a token correctly signed under its own declared
algorithm, which differs from the configured one, is still rejected. -/
theorem algorithm_confusion_rejected_witness :
    jwt_decode (jwt_encode ⟨some "mallory", none⟩ "sk" "none")
        "sk" ["HS256"] 0 = .error .invalidAlgorithm ∧
    ∀ db : List User,
      fetch_token_user db ⟨"sk", "HS256", 15⟩
        (jwt_encode ⟨some "mallory", none⟩ "sk" "none") 0 = none :=
  algorithm_confusion_rejected ⟨"sk", "HS256", 15⟩
    (jwt_encode ⟨some "mallory", none⟩ "sk" "none") 0 (by decide)

/-- Claim C6: for a (username, password) pair the credential store
validates, login succeeds with a token for that user, and decoding the
token with the configured secret key and algorithm (at the issuance
instant) yields a subject equal to the supplied username. -/
theorem login_subject_round_trip (db : List User) (s : Settings) (now : Nat)
    (u p : String) (user : User)
    (h : authenticate_user db u p = some user) :
    login_for_access_token db s now u p =
      some (_create_access_token s now user.username
        (some (60 * s.token_expiration_in_minutes))) ∧
    user.username = u ∧
    (jwt_decode (_create_access_token s now user.username
        (some (60 * s.token_expiration_in_minutes)))
        s.secret_key [s.algorithm] now).map Claims.sub = .ok (some u) := by
  have hname : user.username = u :=
    get_user_by_username_name db u user (authenticate_user_some db u p user h).1
  refine ⟨by simp [login_for_access_token, h], hname, ?_⟩
  rcases Nat.eq_zero_or_pos s.token_expiration_in_minutes with hm | hm
  · simp [_create_access_token, jwt_encode, jwt_decode, hm, Except.map, hname]
  · have h60 : 60 * s.token_expiration_in_minutes ≠ 0 :=
      Nat.mul_ne_zero (by norm_num) hm.ne'
    simp [_create_access_token, jwt_encode, jwt_decode, h60, Except.map, hname,
      Nat.pos_of_ne_zero h60]

/-- Witness for C6: alice logs in with her stored password and the
issued token decodes to subject alice. -/
theorem login_subject_round_trip_witness :
    login_for_access_token [⟨"alice", "hashed:pw", none, false⟩]
        ⟨"sk", "HS256", 15⟩ 0 "alice" "pw" =
      some (_create_access_token ⟨"sk", "HS256", 15⟩ 0 "alice" (some (60 * 15))) ∧
    ("alice" : String) = "alice" ∧
    (jwt_decode (_create_access_token ⟨"sk", "HS256", 15⟩ 0 "alice" (some (60 * 15)))
        "sk" ["HS256"] 0).map Claims.sub = .ok (some "alice") :=
  login_subject_round_trip [⟨"alice", "hashed:pw", none, false⟩]
    ⟨"sk", "HS256", 15⟩ 0 "alice" "pw" ⟨"alice", "hashed:pw", none, false⟩
    (by decide)

/-- Claim C7: login with a nonexistent username and login with an
existing username but a non-verifying password both fail, and the two
observable results are identical. -/
theorem login_failure_indistinguishable (db : List User) (s : Settings)
    (now : Nat) (u1 p1 u2 p2 : String) (user2 : User)
    (h1 : get_user_by_username db u1 = none)
    (h2a : get_user_by_username db u2 = some user2)
    (h2b : verify_password p2 user2.password_hash = false) :
    login_for_access_token db s now u1 p1 = none ∧
    login_for_access_token db s now u2 p2 = none ∧
    login_for_access_token db s now u1 p1 =
      login_for_access_token db s now u2 p2 := by
  have e1 : login_for_access_token db s now u1 p1 = none := by
    simp [login_for_access_token, authenticate_user, h1]
  have e2 : login_for_access_token db s now u2 p2 = none := by
    simp [login_for_access_token, authenticate_user, h2a, h2b]
  exact ⟨e1, e2, e1.trans e2.symm⟩

/-- Witness for C7: against a store holding only alice, login as nouser
and login as alice with a wrong password fail identically. -/
theorem login_failure_indistinguishable_witness :
    login_for_access_token [⟨"alice", "hashed:pw", none, false⟩]
        ⟨"sk", "HS256", 15⟩ 0 "nouser" "whatever" = none ∧
    login_for_access_token [⟨"alice", "hashed:pw", none, false⟩]
        ⟨"sk", "HS256", 15⟩ 0 "alice" "wrongpassword" = none ∧
    login_for_access_token [⟨"alice", "hashed:pw", none, false⟩]
        ⟨"sk", "HS256", 15⟩ 0 "nouser" "whatever" =
      login_for_access_token [⟨"alice", "hashed:pw", none, false⟩]
        ⟨"sk", "HS256", 15⟩ 0 "alice" "wrongpassword" :=
  login_failure_indistinguishable [⟨"alice", "hashed:pw", none, false⟩]
    ⟨"sk", "HS256", 15⟩ 0 "nouser" "whatever" "alice" "wrongpassword"
    ⟨"alice", "hashed:pw", none, false⟩ (by decide) (by decide) (by decide)

/-- Claim C8: a request with neither credential fails, and a request
whose token decodes successfully but whose subject claim is missing, or
names no user in the store, also fails; no default identity is ever
produced. -/
theorem unauthenticated_no_default (db : List User) (s : Settings)
    (now : Nat) (t : JWT) (c : Claims)
    (hdec : jwt_decode t s.secret_key [s.algorithm] now = .ok c)
    (hsub : ∀ u : String, c.sub = some u → get_user_by_username db u = none) :
    get_current_user db s now none none = none ∧
    get_current_user db s now none (some t) = none := by
  refine ⟨rfl, ?_⟩
  show fetch_token_user db s t now = none
  rw [fetch_token_user, hdec]
  rcases hc : c.sub with _ | u
  · simp [hc]
  · simp [hc, hsub u hc]

/-- Witness for C8: an empty store, a well-signed token for a ghost
subject; both the bare request and the tokened request fail. -/
theorem unauthenticated_no_default_witness :
    get_current_user [] ⟨"sk", "HS256", 15⟩ 0 none none = none ∧
    get_current_user [] ⟨"sk", "HS256", 15⟩ 0 none
      (some (jwt_encode ⟨some "ghost", none⟩ "sk" "HS256")) = none :=
  unauthenticated_no_default [] ⟨"sk", "HS256", 15⟩ 0
    (jwt_encode ⟨some "ghost", none⟩ "sk" "HS256") ⟨some "ghost", none⟩
    rfl (fun _ _ => rfl)

/-- Claim C9: issuance builds a claim set whose subject is the given
subject; it adds an expiration of `now + ttl` when a nonzero ttl is
provided; with no ttl the claim set carries no expiration and the token
decodes successfully at every instant (it never expires). -/
theorem create_access_token_claims (s : Settings) (now T : Nat) (u : String)
    (hT : 0 < T) :
    (_create_access_token s now u (some T)).claims = ⟨some u, some (now + T)⟩ ∧
    (_create_access_token s now u none).claims = ⟨some u, none⟩ ∧
    ∀ t : Nat,
      jwt_decode (_create_access_token s now u none)
        s.secret_key [s.algorithm] t = .ok ⟨some u, none⟩ := by
  refine ⟨?_, rfl, fun t => ?_⟩
  · simp [_create_access_token, jwt_encode, hT.ne']
  · simp [_create_access_token, jwt_encode, jwt_decode]

/-- Witness for C9: with a 60-second ttl the claim set carries subject
and expiration; with no ttl it carries no expiration and still decodes
at the late instant 1000000. -/
theorem create_access_token_claims_witness :
    (_create_access_token ⟨"sk", "HS256", 15⟩ 40 "carol" (some 60)).claims
      = ⟨some "carol", some 100⟩ ∧
    (_create_access_token ⟨"sk", "HS256", 15⟩ 40 "carol" none).claims
      = ⟨some "carol", none⟩ ∧
    jwt_decode (_create_access_token ⟨"sk", "HS256", 15⟩ 40 "carol" none)
      "sk" ["HS256"] 1000000 = .ok ⟨some "carol", none⟩ :=
  ⟨(create_access_token_claims ⟨"sk", "HS256", 15⟩ 40 60 "carol" (by decide)).1,
    (create_access_token_claims ⟨"sk", "HS256", 15⟩ 40 60 "carol" (by decide)).2.1,
    (create_access_token_claims ⟨"sk", "HS256", 15⟩ 40 60 "carol" (by decide)).2.2
      1000000⟩

/-- Claim C10: login issues the token with the configured expiration as
a duration of `60 * token_expiration_in_minutes` seconds; because a zero
duration is falsy, a configuration of exactly zero minutes yields a
token with no expiration claim, while every positive configuration
yields a token whose expiration claim is present and equals
`now + 60 * token_expiration_in_minutes`. -/
theorem login_zero_expiration_edge (db : List User) (s : Settings)
    (now : Nat) (u p : String) (user : User)
    (h : authenticate_user db u p = some user) :
    login_for_access_token db s now u p =
      some (_create_access_token s now user.username
        (some (60 * s.token_expiration_in_minutes))) ∧
    (s.token_expiration_in_minutes = 0 →
      (_create_access_token s now user.username
        (some (60 * s.token_expiration_in_minutes))).claims.exp = none) ∧
    (0 < s.token_expiration_in_minutes →
      (_create_access_token s now user.username
        (some (60 * s.token_expiration_in_minutes))).claims.exp =
        some (now + 60 * s.token_expiration_in_minutes)) := by
  refine ⟨by simp [login_for_access_token, h], ?_, ?_⟩
  · intro hm
    simp [_create_access_token, jwt_encode, hm]
  · intro hm
    have h60 : 60 * s.token_expiration_in_minutes ≠ 0 :=
      Nat.mul_ne_zero (by norm_num) hm.ne'
    simp [_create_access_token, jwt_encode, h60]

/-- Witness for C10: with a zero-minute configuration dave's login token
carries no expiration claim; with a 15-minute configuration it expires
900 seconds after issuance. -/
theorem login_zero_expiration_edge_witness :
    (login_for_access_token [⟨"dave", "hashed:pw", none, false⟩]
        ⟨"sk", "HS256", 0⟩ 7 "dave" "pw" =
      some (_create_access_token ⟨"sk", "HS256", 0⟩ 7 "dave" (some (60 * 0))) ∧
      ((0 : Nat) = 0 →
        (_create_access_token ⟨"sk", "HS256", 0⟩ 7 "dave"
          (some (60 * 0))).claims.exp = none)) ∧
    (login_for_access_token [⟨"dave", "hashed:pw", none, false⟩]
        ⟨"sk", "HS256", 15⟩ 7 "dave" "pw" =
      some (_create_access_token ⟨"sk", "HS256", 15⟩ 7 "dave" (some (60 * 15))) ∧
      ((0 : Nat) < 15 →
        (_create_access_token ⟨"sk", "HS256", 15⟩ 7 "dave"
          (some (60 * 15))).claims.exp = some (7 + 60 * 15))) :=
  ⟨⟨(login_zero_expiration_edge [⟨"dave", "hashed:pw", none, false⟩]
        ⟨"sk", "HS256", 0⟩ 7 "dave" "pw" ⟨"dave", "hashed:pw", none, false⟩
        (by decide)).1,
      (login_zero_expiration_edge [⟨"dave", "hashed:pw", none, false⟩]
        ⟨"sk", "HS256", 0⟩ 7 "dave" "pw" ⟨"dave", "hashed:pw", none, false⟩
        (by decide)).2.1⟩,
    ⟨(login_zero_expiration_edge [⟨"dave", "hashed:pw", none, false⟩]
        ⟨"sk", "HS256", 15⟩ 7 "dave" "pw" ⟨"dave", "hashed:pw", none, false⟩
        (by decide)).1,
      (login_zero_expiration_edge [⟨"dave", "hashed:pw", none, false⟩]
        ⟨"sk", "HS256", 15⟩ 7 "dave" "pw" ⟨"dave", "hashed:pw", none, false⟩
        (by decide)).2.2⟩⟩

end Argilla
